import Mathlib

/-!
Verification development for the Bignay image-analysis backend.

The definitions below are a shallow embedding of the Python source:
* `utils_image.py` — data-URL decoding, foreground segmentation,
  feature extraction, quality assessment and image enhancement;
* `app.py` — the `_is_bignay_image` subject gate.

Machine floats are idealised as rationals (ℚ); reals appear only where the
source takes a square root.  Calls into external libraries (OpenCV and
numpy primitives such as `cvtColor`, `GaussianBlur`, Otsu thresholding,
morphology, `findContours`, `drawContours`, `bilateralFilter`, CLAHE,
`imencode`, `sqrt`) are modelled as function parameters: the repository
code around them is translated exactly, and theorems quantify over the
possible behaviours of those externals (constrained, where a claim needs
it, by explicitly stated contracts discharged in witnesses).
-/

/-- A BGR pixel: blue, green, red 8-bit intensities (as naturals). -/
abbrev Pixel := ℕ × ℕ × ℕ

/-- A 3-channel image: rows of pixels. -/
abbrev PixelGrid := List (List Pixel)

/-- A single-channel image (mask, grayscale, L channel, ...). -/
abbrev ChannelGrid := List (List ℕ)

/-- A contour as returned by `cv2.findContours`: a closed polyline of
integer pixel coordinates (x, y). -/
abbrev Contour := List (ℤ × ℤ)

/-- Mirror of the frozen dataclass `ImageFeatures` in `utils_image.py`. -/
structure ImageFeatures where
  image_sha256 : String
  color_hsv_mean : ℚ × ℚ × ℚ
  color_lab_mean : ℚ × ℚ × ℚ
  size_px_diameter : Option ℝ
  mask_coverage : ℚ

/-- Mirror of the frozen dataclass `ImageQuality` in `utils_image.py`. -/
structure ImageQuality where
  blur_score : ℚ
  brightness_score : ℚ
  contrast_score : ℚ
  subject_size_score : ℚ
  overall_quality : String
  issues : List String
  recommendations : List String

/-- The dict returned by `_is_bignay_image` in `app.py`; branches that do
not put a `"warning"` key in the dict are modelled with `warning := none`. -/
structure GateResult where
  is_bignay : Bool
  confidence_level : String
  reason : Option String
  quality_issues : List String
  quality_recommendations : List String
  warning : Option String

/-- Constant `BIGNAY_CONFIDENCE_THRESHOLD` in `app.py`. -/
def BIGNAY_CONFIDENCE_THRESHOLD : ℚ := 0.45

/-- Constant `MIN_CONFIDENCE_THRESHOLD` in `app.py`. -/
def MIN_CONFIDENCE_THRESHOLD : ℚ := 0.30

/-- Constant `ABSOLUTE_MIN_THRESHOLD` in `app.py`. -/
def ABSOLUTE_MIN_THRESHOLD : ℚ := 0.25

/-- Predicate `is_red_purple = (h <= 20) or (h >= 130)` from `_is_bignay_image`. -/
def is_red_purple (h : ℚ) : Prop := h ≤ 20 ∨ 130 ≤ h

instance instDecIsRedPurple (h : ℚ) : Decidable (is_red_purple h) :=
  inferInstanceAs (Decidable (h ≤ 20 ∨ 130 ≤ h))

/-- Predicate `is_green = (35 <= h <= 90)` from `_is_bignay_image`. -/
def is_green (h : ℚ) : Prop := 35 ≤ h ∧ h ≤ 90

instance instDecIsGreen (h : ℚ) : Decidable (is_green h) :=
  inferInstanceAs (Decidable (35 ≤ h ∧ h ≤ 90))

/-- Predicate `is_typical_bignay_color = is_red_purple or is_green`. -/
def is_typical_bignay_color (h : ℚ) : Prop := is_red_purple h ∨ is_green h

instance instDecIsTypical (h : ℚ) : Decidable (is_typical_bignay_color h) :=
  inferInstanceAs (Decidable (is_red_purple h ∨ is_green h))

/-- Predicate `is_orange_yellow = (20 < h < 35) and s > 50`. -/
def is_orange_yellow (h s : ℚ) : Prop := (20 < h ∧ h < 35) ∧ 50 < s

instance instDecIsOrangeYellow (h s : ℚ) : Decidable (is_orange_yellow h s) :=
  inferInstanceAs (Decidable ((20 < h ∧ h < 35) ∧ 50 < s))

/-- Predicate `is_blue_cyan = (90 < h < 130) and s > 40`. -/
def is_blue_cyan (h s : ℚ) : Prop := (90 < h ∧ h < 130) ∧ 40 < s

instance instDecIsBlueCyan (h s : ℚ) : Decidable (is_blue_cyan h s) :=
  inferInstanceAs (Decidable ((90 < h ∧ h < 130) ∧ 40 < s))

/-- Predicate `is_clearly_not_bignay_color = is_orange_yellow or is_blue_cyan`. -/
def is_clearly_not_bignay_color (h s : ℚ) : Prop :=
  is_orange_yellow h s ∨ is_blue_cyan h s

instance instDecIsClearlyNot (h s : ℚ) : Decidable (is_clearly_not_bignay_color h s) :=
  inferInstanceAs (Decidable (is_orange_yellow h s ∨ is_blue_cyan h s))

/-- Expression `image_quality.issues if image_quality else []` in `_is_bignay_image`. -/
def quality_issues_of : Option ImageQuality → List String
  | some q => q.issues
  | none => []

/-- Expression `image_quality.recommendations if image_quality else []`. -/
def quality_recommendations_of : Option ImageQuality → List String
  | some q => q.recommendations
  | none => []

/-- Expression `image_quality.overall_quality if image_quality else "unknown"`. -/
def overall_quality_of : Option ImageQuality → String
  | some q => q.overall_quality
  | none => "unknown"

/-- Shallow embedding of `_is_bignay_image` from `app.py` (lines 152-284).
Only the hue and saturation components of `features.color_hsv_mean` are
consulted, exactly as in the source. -/
def is_bignay_image (confidence : ℚ) (features : ImageFeatures)
    (image_quality : Option ImageQuality) : GateResult :=
  let quality_issues := quality_issues_of image_quality
  let quality_recommendations := quality_recommendations_of image_quality
  let overall_quality := overall_quality_of image_quality
  let h := features.color_hsv_mean.1
  let s := features.color_hsv_mean.2.1
  -- STEP 1: absolute minimum threshold
  if confidence < ABSOLUTE_MIN_THRESHOLD then
    { is_bignay := false
      confidence_level := "very_low"
      reason := some (if quality_issues ≠ [] then
          "The image does not appear to be a Bignay fruit or leaf." ++
            " Issues: " ++ String.intercalate ", " (quality_issues.take 2) ++ "."
        else
          "The image does not appear to be a Bignay fruit or leaf." ++
            " Model confidence is very low.")
      quality_issues := quality_issues
      quality_recommendations := quality_recommendations
      warning := none }
  -- STEP 2: color-based rejection for clearly non-bignay colors
  else if is_clearly_not_bignay_color h s ∧ confidence < 0.60 then
    { is_bignay := false
      confidence_level := "color_mismatch"
      reason := some ("The image color does not match Bignay. " ++
        "Bignay fruits are typically dark purple/red (ripe) or green (unripe).")
      quality_issues := quality_issues
      quality_recommendations := ["Make sure you\x27re scanning a Bignay fruit or leaf"]
      warning := none }
  -- STEP 3: below minimum threshold
  else if confidence < MIN_CONFIDENCE_THRESHOLD then
    if ¬ is_typical_bignay_color h then
      { is_bignay := false
        confidence_level := "low"
        reason := some ("The image does not appear to be a Bignay. " ++
          "Color and confidence do not match expected values.")
        quality_issues := quality_issues
        quality_recommendations := quality_recommendations
        warning := none }
    else if (overall_quality = "poor" ∨ overall_quality = "acceptable") ∧
        is_typical_bignay_color h then
      { is_bignay := true
        confidence_level := "very_low"
        reason := some "Detection confidence is very low, but color profile matches Bignay."
        quality_issues := quality_issues
        quality_recommendations := quality_recommendations
        warning := some "Results may be inaccurate. Try capturing a clearer image." }
    else
      { is_bignay := false
        confidence_level := "low"
        reason := some "The image might not be a Bignay fruit or leaf. Please verify."
        quality_issues := quality_issues
        quality_recommendations := quality_recommendations
        warning := none }
  -- STEP 4: between MIN and BIGNAY threshold
  else if confidence < BIGNAY_CONFIDENCE_THRESHOLD then
    { is_bignay := true
      confidence_level := "low"
      reason := none
      quality_issues := quality_issues
      quality_recommendations := quality_recommendations
      warning := some (if quality_issues ≠ [] then
          "Results may be affected by: " ++
            String.intercalate ", " (quality_issues.take 2) ++ "."
        else
          "Results may be less accurate due to low confidence.") }
  -- STEP 5: above threshold
  else if ¬ is_typical_bignay_color h ∧ 60 < s ∧ confidence < 0.65 then
    { is_bignay := true
      confidence_level := "medium"
      reason := none
      quality_issues := quality_issues
      quality_recommendations := ["Color appears unusual - verify if needed"]
      warning := some "Color profile is atypical for Bignay" }
  else
    { is_bignay := true
      confidence_level :=
        if 0.70 ≤ confidence then "high" else if 0.55 ≤ confidence then "medium" else "low"
      reason := none
      quality_issues := quality_issues
      quality_recommendations :=
        if confidence < 0.60 then quality_recommendations else []
      warning := none }

/-- Python `data_url.split(",", 1)[1]`: everything after the first comma. -/
def afterFirstComma (s : List Char) : List Char :=
  (s.dropWhile (fun c => c ≠ ',')).drop 1

/-- Shallow embedding of `decode_data_url` from `utils_image.py`;
`base64.b64decode` (Python standard library) is a parameter. -/
def decode_data_url (b64decode : List Char → Except String (List ℕ))
    (data_url : List Char) : Except String (List ℕ) :=
  if ',' ∉ data_url then Except.error "Invalid data URL"
  else b64decode (afterFirstComma data_url)

/-- OpenCV fixed-point `cvtColor(..., COLOR_BGR2GRAY)`:
`(B*1868 + G*9617 + R*4899 + 2^13) >> 14`. -/
def bgr2gray (img : PixelGrid) : ChannelGrid :=
  img.map (List.map fun p => (p.1 * 1868 + p.2.1 * 9617 + p.2.2 * 4899 + 8192) / 16384)

/-- OpenCV `BORDER_REFLECT_101` index folding for a dimension of size `n`. -/
def reflect101 (n : ℕ) (i : ℤ) : ℕ :=
  if n ≤ 1 then 0
  else
    let p : ℤ := 2 * (n : ℤ) - 2
    let j : ℤ := i % p
    if j < (n : ℤ) then j.toNat else (p - j).toNat

/-- Width of a channel grid (length of the first row). -/
def gridW (g : ChannelGrid) : ℕ := (g.headD []).length

/-- Reflected lookup into a channel grid. -/
def chanGet (g : ChannelGrid) (r c : ℤ) : ℤ :=
  ((g.getD (reflect101 g.length r) []).getD (reflect101 (gridW g) c) 0 : ℤ)

/-- One application of the 3x3 Laplacian kernel `[[0,1,0],[1,-4,1],[0,1,0]]`
(the `cv2.Laplacian(gray, CV_64F)` default) at position `(r, c)`. -/
def laplacianAt (g : ChannelGrid) (r c : ℕ) : ℤ :=
  chanGet g ((r : ℤ) - 1) c + chanGet g ((r : ℤ) + 1) c +
    chanGet g r ((c : ℤ) - 1) + chanGet g r ((c : ℤ) + 1) - 4 * chanGet g r c

/-- All Laplacian responses over the grid. -/
def laplacian_values (g : ChannelGrid) : List ℤ :=
  (List.range g.length).flatMap fun r => (List.range (gridW g)).map fun c => laplacianAt g r c

/-- Arithmetic mean of a rational list (`0` for the empty list, which valid
images never produce). -/
def listMean (xs : List ℚ) : ℚ := xs.sum / xs.length

/-- Population variance, exactly `numpy.var`. -/
def listVariance (xs : List ℚ) : ℚ :=
  listMean (xs.map fun x => (x - listMean xs) ^ 2)

/-- All grayscale intensities of a grid, as rationals. -/
def grayValues (g : ChannelGrid) : List ℚ := g.flatten.map (fun x => (x : ℚ))

/-- Expression `cv2.Laplacian(gray, CV_64F).var()` in `assess_image_quality`. -/
def laplacian_var (img : PixelGrid) : ℚ :=
  listVariance ((laplacian_values (bgr2gray img)).map (fun x => (x : ℚ)))

/-- Score `blur_score = min(1.0, laplacian_var / 500.0)`. -/
def blur_score (img : PixelGrid) : ℚ := min 1 (laplacian_var img / 500)

/-- Value `brightness = np.mean(gray) / 255.0`. -/
def brightness (img : PixelGrid) : ℚ := listMean (grayValues (bgr2gray img)) / 255

/-- The piecewise brightness score of `assess_image_quality`, including the
final clamp to `[0, 1]`. -/
def brightness_score (img : PixelGrid) : ℚ :=
  max 0 (min 1 (if 0.3 ≤ brightness img ∧ brightness img ≤ 0.7 then 1
    else if brightness img < 0.3 then brightness img / 0.3
    else (1 - brightness img) / 0.3))

/-- Score `contrast_score = min(1.0, np.std(gray) / 128.0)`; the numpy square
root (`std = sqrt(var)`) is the parameter `sqrtQ`. -/
def contrast_score (sqrtQ : ℚ → ℚ) (img : PixelGrid) : ℚ :=
  min 1 (sqrtQ (listVariance (grayValues (bgr2gray img))) / 128)

/-- The piecewise subject-size score of `assess_image_quality`, including the
final clamp to `[0, 1]`. -/
def subject_size_score (mask_coverage : ℚ) : ℚ :=
  max 0 (min 1 (if 0.05 ≤ mask_coverage ∧ mask_coverage ≤ 0.50 then 1
    else if mask_coverage < 0.05 then mask_coverage / 0.05
    else max 0.3 (1 - (mask_coverage - 0.50) / 0.50)))

/-- The four issue/recommendation checks of `assess_image_quality`, in source
order; each check contributes a pair of (issues appended, recommendations
appended). -/
def quality_checks (sqrtQ : ℚ → ℚ) (img : PixelGrid) (mask_coverage : ℚ) :
    List (List String × List String) :=
  [ (if blur_score img < 0.3 then
       (["Image appears blurry"], ["Hold the camera steady or tap to focus"])
     else if blur_score img < 0.5 then
       (["Image is slightly out of focus"], ["Try focusing on the fruit/leaf"])
     else ([], [])),
    (if brightness img < 0.25 then
       (["Image is too dark"], ["Move to better lighting or use flash"])
     else if 0.75 < brightness img then
       (["Image is overexposed"], ["Reduce direct light or move to shade"])
     else ([], [])),
    (if contrast_score sqrtQ img < 0.3 then
       (["Low contrast detected"], ["Ensure the fruit/leaf stands out from background"])
     else ([], [])),
    (if mask_coverage < 0.03 then
       (["Subject appears too far or small"], ["Move closer to the Bignay fruit or leaf"])
     else if 0.60 < mask_coverage then
       (["Subject is too close"], ["Move back slightly to capture the whole fruit/leaf"])
     else ([], [])) ]

/-- The `issues` list accumulated by `assess_image_quality`. -/
def quality_issues (sqrtQ : ℚ → ℚ) (img : PixelGrid) (mask_coverage : ℚ) : List String :=
  ((quality_checks sqrtQ img mask_coverage).map Prod.fst).flatten

/-- The `recommendations` list accumulated by `assess_image_quality`. -/
def quality_recommendations (sqrtQ : ℚ → ℚ) (img : PixelGrid) (mask_coverage : ℚ) :
    List String :=
  ((quality_checks sqrtQ img mask_coverage).map Prod.snd).flatten

/-- Average `avg_score = (blur + brightness + contrast + subject_size) / 4.0`
over the unrounded scores. -/
def avg_score (sqrtQ : ℚ → ℚ) (img : PixelGrid) (mask_coverage : ℚ) : ℚ :=
  (blur_score img + brightness_score img + contrast_score sqrtQ img +
    subject_size_score mask_coverage) / 4

/-- Python `round(x, 3)` (half-even ties cannot arise in the uses below;
modelled with Mathlib rounding). -/
def round3 (q : ℚ) : ℚ := ((round (q * 1000) : ℤ) : ℚ) / 1000

/-- Shallow embedding of `assess_image_quality` from `utils_image.py`. -/
def assess_image_quality (sqrtQ : ℚ → ℚ) (img : PixelGrid) (mask_coverage : ℚ) :
    ImageQuality :=
  { blur_score := round3 (blur_score img)
    brightness_score := round3 (brightness_score img)
    contrast_score := round3 (contrast_score sqrtQ img)
    subject_size_score := round3 (subject_size_score mask_coverage)
    overall_quality :=
      if 0.6 ≤ avg_score sqrtQ img mask_coverage ∧
          (quality_issues sqrtQ img mask_coverage).length ≤ 1 then "good"
      else if 0.35 ≤ avg_score sqrtQ img mask_coverage ∨
          (quality_issues sqrtQ img mask_coverage).length ≤ 2 then "acceptable"
      else "poor"
    issues := quality_issues sqrtQ img mask_coverage
    recommendations := quality_recommendations sqrtQ img mask_coverage }

/-- OpenCV `cv2.addWeighted(s, 0.6, v, 0.4, 0)` on 8-bit channels: rounded and
saturated blend (the blend of two 8-bit values never hits an exact
half-integer, so the rounding mode is immaterial). -/
def addWeighted_sv (s v : ℕ) : ℕ :=
  min 255 ((round (((6 * s + 4 * v : ℕ) : ℚ) / 10) : ℤ)).toNat

/-- Pointwise combination of two channel grids. -/
def zipWith2D (f : ℕ → ℕ → ℕ) (a b : ChannelGrid) : ChannelGrid :=
  List.zipWith (List.zipWith f) a b

/-- Cyclic cross-product sum of a closed polyline (the Green-formula sum
used by `cv2.contourArea`). -/
def shoelaceFrom (first : ℤ × ℤ) : Contour → ℤ
  | [] => 0
  | [p] => p.1 * first.2 - first.1 * p.2
  | p :: q :: rest => (p.1 * q.2 - q.1 * p.2) + shoelaceFrom first (q :: rest)

/-- OpenCV `cv2.contourArea(contour)`: half the absolute Green-formula sum. -/
def contourArea (c : Contour) : ℚ :=
  match c with
  | [] => 0
  | p :: _ => |((shoelaceFrom p c : ℤ) : ℚ)| / 2

/-- Python `max(contours, key=cv2.contourArea)`: Python `max` keeps the first
maximal element, replacing only on a strictly larger key. -/
def maxByArea : List Contour → Contour
  | [] => []
  | c :: rest =>
    rest.foldl (fun best x => if contourArea best < contourArea x then x else best) c

/-- Numpy `np.zeros((h, w), dtype=np.uint8)`. -/
def zerosGrid (h w : ℕ) : ChannelGrid := List.replicate h (List.replicate w 0)

/-- The OpenCV primitives used by `_largest_contour_mask` and
`extract_features`, as parameters of the embedding. -/
structure SegParams where
  cvtColor_bgr2hsv : PixelGrid → PixelGrid
  cvtColor_bgr2lab : PixelGrid → PixelGrid
  gaussianBlur7 : ChannelGrid → ChannelGrid
  otsuThreshold : ChannelGrid → ChannelGrid
  morphClose7x2 : ChannelGrid → ChannelGrid
  morphOpen7x1 : ChannelGrid → ChannelGrid
  findContours : ChannelGrid → List Contour
  drawFilledContour : ℕ → ℕ → Contour → ChannelGrid
  imencodeJpg : PixelGrid → Option (List ℕ)
  sha256hex : List ℕ → String

/-- Shallow embedding of `_largest_contour_mask` from `utils_image.py`. -/
def largest_contour_mask (P : SegParams) (image_bgr : PixelGrid) : ChannelGrid × ℚ :=
  let h := image_bgr.length
  let w := (image_bgr.headD []).length
  let hsv := P.cvtColor_bgr2hsv image_bgr
  let sChan := hsv.map (List.map (·.2.1))
  let vChan := hsv.map (List.map (·.2.2))
  let gray := zipWith2D addWeighted_sv sChan vChan
  let grayBlur := P.gaussianBlur7 gray
  let thresh := P.otsuThreshold grayBlur
  let threshClosed := P.morphClose7x2 thresh
  let threshOpened := P.morphOpen7x1 threshClosed
  match P.findContours threshOpened with
  | [] => (zerosGrid h w, 0)
  | c :: rest =>
    let contour := maxByArea (c :: rest)
    let area := contourArea contour
    let mask := P.drawFilledContour h w contour
    (mask, area / ((h : ℚ) * (w : ℚ)))

/-- Expression `hsv[mask.astype(bool)]`: the pixels at positions where the mask is
nonzero. -/
def maskedPixels (img : PixelGrid) (mask : ChannelGrid) : List Pixel :=
  (List.zipWith (fun rowp rowm =>
      (List.zipWith (fun p m => (p, m)) rowp rowm).filterMap
        (fun pm => if pm.2 ≠ 0 then some pm.1 else none))
    img mask).flatten

/-- Expression `hsv.reshape(-1, 3)`: every pixel of the grid. -/
def allPixels (img : PixelGrid) : List Pixel := img.flatten

/-- Expression `pixels.mean(axis=0)`: per-channel arithmetic mean of a pixel list. -/
def meanPerChannel (ps : List Pixel) : ℚ × ℚ × ℚ :=
  (listMean (ps.map fun p => (p.1 : ℚ)),
   listMean (ps.map fun p => (p.2.1 : ℚ)),
   listMean (ps.map fun p => (p.2.2 : ℚ)))

/-- Total of all entries of a channel grid. -/
def sumEntries (g : ChannelGrid) : ℕ := (g.map List.sum).sum

/-- Expression `float(mask.sum() / 255.0)` in `extract_features`. -/
def maskArea (g : ChannelGrid) : ℚ := (sumEntries g : ℚ) / 255

/-- Number of nonzero entries of a channel grid (the pixel count of a
0/255 mask). -/
def countPos (g : ChannelGrid) : ℕ :=
  (g.map (fun row => (row.filter (fun x => x ≠ 0)).length)).sum

/-- Expression `image_bgr.tobytes()`: the raw interleaved channel bytes. -/
def pixelBytes (img : PixelGrid) : List ℕ :=
  (img.map (fun row => row.flatMap (fun p => [p.1, p.2.1, p.2.2]))).flatten

/-- Shallow embedding of `extract_features` from `utils_image.py`.  The
square root of the equivalent-circular-diameter formula forces the one
real-valued, noncomputable field. -/
noncomputable def extract_features (P : SegParams) (image_bgr : PixelGrid) : ImageFeatures :=
  let mask := (largest_contour_mask P image_bgr).1
  let coverage := (largest_contour_mask P image_bgr).2
  let hsv := P.cvtColor_bgr2hsv image_bgr
  let lab := P.cvtColor_bgr2lab image_bgr
  let hsv_pixels := if 0.01 < coverage then maskedPixels hsv mask else allPixels hsv
  let lab_pixels := if 0.01 < coverage then maskedPixels lab mask else allPixels lab
  let size_px_diameter : Option ℝ :=
    if 0.01 < coverage then some (Real.sqrt (4 * (maskArea mask : ℝ) / Real.pi))
    else none
  let encoded_bytes := match P.imencodeJpg image_bgr with
    | some encoded => encoded
    | none => pixelBytes image_bgr
  { image_sha256 := P.sha256hex encoded_bytes
    color_hsv_mean := meanPerChannel hsv_pixels
    color_lab_mean := meanPerChannel lab_pixels
    size_px_diameter := size_px_diameter
    mask_coverage := coverage }

/-- The OpenCV primitives used by `enhance_image_for_detection`, as
parameters of the embedding. -/
structure EnhanceParams where
  bilateralFilter9 : PixelGrid → PixelGrid
  cvtColor_bgr2lab : PixelGrid → PixelGrid
  claheL : ChannelGrid → ChannelGrid
  cvtColor_lab2bgr : PixelGrid → PixelGrid

/-- Reflected lookup into a pixel grid. -/
def pixGet (img : PixelGrid) (r c : ℤ) : Pixel :=
  (img.getD (reflect101 img.length r) []).getD
    (reflect101 ((img.headD []).length) c) (0, 0, 0)

/-- OpenCV `saturate_cast<uchar>(cvRound(x))`: round then clamp to `[0, 255]`
(the kernel weights below only produce thirds, never exact halves, so the
rounding mode is immaterial). -/
def satRound (q : ℚ) : ℕ := (max 0 (min 255 (round q : ℤ))).toNat

/-- One application of the sharpening kernel
`[[-1,-1,-1],[-1,9.5,-1],[-1,-1,-1]] / 1.5` to one channel at `(r, c)`. -/
def sharpenAt (img : PixelGrid) (ch : Pixel → ℕ) (r c : ℕ) : ℕ :=
  let offsets : List (ℤ × ℤ) :=
    [(-1, -1), (-1, 0), (-1, 1), (0, -1), (0, 1), (1, -1), (1, 0), (1, 1)]
  let nbrSum : ℚ :=
    (offsets.map (fun d => ((ch (pixGet img ((r : ℤ) + d.1) ((c : ℤ) + d.2)) : ℚ)))).sum
  satRound ((19 / 3) * (ch (pixGet img r c) : ℚ) - (2 / 3) * nbrSum)

/-- OpenCV `cv2.filter2D(enhanced, -1, kernel)` with the fixed sharpening kernel. -/
def filter2D_sharpen (img : PixelGrid) : PixelGrid :=
  img.mapIdx fun r row => row.mapIdx fun c _ =>
    (sharpenAt img (·.1) r c, sharpenAt img (·.2.1) r c, sharpenAt img (·.2.2) r c)

/-- Numpy `np.clip(enhanced, 0, 255).astype(np.uint8)` (channels are naturals,
so only the upper clamp is nontrivial). -/
def clipGrid (img : PixelGrid) : PixelGrid :=
  img.map (List.map fun p => (min 255 p.1, min 255 p.2.1, min 255 p.2.2))

/-- OpenCV `cv2.split(lab)[0]`: the L channel. -/
def splitL (lab : PixelGrid) : ChannelGrid := lab.map (List.map (·.1))

/-- OpenCV `cv2.split(lab)[1]`: the a channel. -/
def splitA (lab : PixelGrid) : ChannelGrid := lab.map (List.map (·.2.1))

/-- OpenCV `cv2.split(lab)[2]`: the b channel. -/
def splitB (lab : PixelGrid) : ChannelGrid := lab.map (List.map (·.2.2))

/-- OpenCV `cv2.merge([l, a, b])`. -/
def mergeLab (l a b : ChannelGrid) : PixelGrid :=
  List.zipWith3 (fun lr ar br => List.zipWith3 (fun x y z => (x, y, z)) lr ar br) l a b

/-- Shallow embedding of `enhance_image_for_detection` from
`utils_image.py`.  The embedding is a pure function, so the input grid is
left untouched by construction (`image_bgr.copy()` in the source). -/
def enhance_image_for_detection (E : EnhanceParams) (image_bgr : PixelGrid) : PixelGrid :=
  let enhanced := image_bgr
  let enhanced1 := E.bilateralFilter9 enhanced
  let lab := E.cvtColor_bgr2lab enhanced1
  let l_channel := splitL lab
  let a_channel := splitA lab
  let b_channel := splitB lab
  let l_clahe := E.claheL l_channel
  let lab2 := mergeLab l_clahe a_channel b_channel
  let enhanced2 := E.cvtColor_lab2bgr lab2
  let enhanced3 := filter2D_sharpen enhanced2
  clipGrid enhanced3

/-- The per-row shape of a pixel grid. -/
def rowShape (g : PixelGrid) : List ℕ := g.map List.length

/-- The per-row shape of a channel grid. -/
def rowShapeC (g : ChannelGrid) : List ℕ := g.map List.length

/-- Contract of OpenCV image-to-image operations: the output has the
dimensions of the input. -/
def PreservesShape (f : PixelGrid → PixelGrid) : Prop :=
  ∀ g, rowShape (f g) = rowShape g

/-- Contract of OpenCV channel-to-channel operations: the output has the
dimensions of the input. -/
def PreservesShapeC (f : ChannelGrid → ChannelGrid) : Prop :=
  ∀ g, rowShapeC (f g) = rowShapeC g

/-- Claim C9: the typical-color predicate (`h <= 20` or `h >= 130` or
`35 <= h <= 90`) and the clearly-wrong-color predicate
(`20 < h < 35` with `s > 50`, or `90 < h < 130` with `s > 40`) are
disjoint: no hue/saturation pair satisfies both. -/
theorem color_predicates_disjoint (h s : ℚ)
    (ht : is_typical_bignay_color h) : ¬ is_clearly_not_bignay_color h s := by
  rcases ht with hrp | hg
  · rcases hrp with h20 | h130 <;>
      rintro (⟨⟨ha, hb⟩, -⟩ | ⟨⟨ha, hb⟩, -⟩) <;> linarith
  · obtain ⟨h35, h90⟩ := hg
    rintro (⟨⟨ha, hb⟩, -⟩ | ⟨⟨ha, hb⟩, -⟩) <;> linarith

/-- Witness for C9 at the concrete hue 10 (red/purple) and saturation 100. -/
theorem color_predicates_disjoint_witness :
    is_typical_bignay_color (10 : ℚ) ∧ ¬ is_clearly_not_bignay_color (10 : ℚ) 100 :=
  ⟨by decide, color_predicates_disjoint 10 100 (by decide)⟩

/-- Claim C6: whenever `confidence < ABSOLUTE_MIN_THRESHOLD` (0.25) the
gate rejects with confidence level `very_low`, whatever the color features
and whether the quality assessment is present or absent, and the reason is
composed from the quality issues if any are present, else states that
model confidence is very low. -/
theorem gate_rejects_below_absolute_min (c : ℚ) (f : ImageFeatures)
    (q : Option ImageQuality) (hc : c < ABSOLUTE_MIN_THRESHOLD) :
    (is_bignay_image c f q).is_bignay = false ∧
    (is_bignay_image c f q).confidence_level = "very_low" ∧
    (is_bignay_image c f q).reason = some (if quality_issues_of q ≠ [] then
        "The image does not appear to be a Bignay fruit or leaf." ++
          " Issues: " ++ String.intercalate ", " ((quality_issues_of q).take 2) ++ "."
      else
        "The image does not appear to be a Bignay fruit or leaf." ++
          " Model confidence is very low.") := by
  simp only [is_bignay_image, if_pos hc]
  refine ⟨?_, ?_, ?_⟩ <;> first | rfl | trivial

/-- Witness for C6 at confidence 0.20 with quality absent. -/
theorem gate_rejects_below_absolute_min_witness :
    (is_bignay_image 0.20 ⟨"", (10, 100, 80), (0, 0, 0), none, 0⟩ none).is_bignay = false ∧
    (is_bignay_image 0.20 ⟨"", (10, 100, 80), (0, 0, 0), none, 0⟩ none).confidence_level =
      "very_low" := by
  have h := gate_rejects_below_absolute_min 0.20 ⟨"", (10, 100, 80), (0, 0, 0), none, 0⟩
    none (by norm_num [ABSOLUTE_MIN_THRESHOLD])
  exact ⟨h.1, h.2.1⟩

/-- Counterexample to claim C1: at confidence 0.27 with a typical (red/purple,
hue 10) color, no clearly-wrong color, and overall quality `poor`, the gate
does accept with level `very_low` and a recapture warning, but — contrary to
the claim — a reason IS present. -/
theorem gate_low_conf_reason_counterexample :
    ((1 / 4 : ℚ) ≤ 0.27 ∧ (0.27 : ℚ) < 3 / 10) ∧
    is_typical_bignay_color (10 : ℚ) ∧
    ¬ is_clearly_not_bignay_color (10 : ℚ) 100 ∧
    (is_bignay_image 0.27 ⟨"", (10, 100, 80), (0, 0, 0), none, 0⟩
      (some ⟨0, 0, 0, 0, "poor", [], []⟩)).is_bignay = true ∧
    (is_bignay_image 0.27 ⟨"", (10, 100, 80), (0, 0, 0), none, 0⟩
      (some ⟨0, 0, 0, 0, "poor", [], []⟩)).confidence_level = "very_low" ∧
    (is_bignay_image 0.27 ⟨"", (10, 100, 80), (0, 0, 0), none, 0⟩
      (some ⟨0, 0, 0, 0, "poor", [], []⟩)).warning =
      some "Results may be inaccurate. Try capturing a clearer image." ∧
    (is_bignay_image 0.27 ⟨"", (10, 100, 80), (0, 0, 0), none, 0⟩
      (some ⟨0, 0, 0, 0, "poor", [], []⟩)).reason ≠ none := by
  refine ⟨by norm_num, ?_⟩
  norm_num [is_bignay_image, ABSOLUTE_MIN_THRESHOLD, MIN_CONFIDENCE_THRESHOLD,
    BIGNAY_CONFIDENCE_THRESHOLD, is_typical_bignay_color, is_red_purple, is_green,
    is_clearly_not_bignay_color, is_orange_yellow, is_blue_cyan,
    quality_issues_of, quality_recommendations_of, overall_quality_of]
  exact Option.some_ne_none _

/-- Claim C1 as amended: for `ABSOLUTE_MIN <= confidence < MIN`, a typical
color, no clearly-wrong color, and overall quality `poor` or `acceptable`,
the gate accepts with level `very_low`, a reason stating that confidence is
very low but the color profile matches, and a warning urging a clearer
recapture. -/
theorem gate_low_conf_poor_quality_accepts (c : ℚ) (f : ImageFeatures)
    (q : ImageQuality)
    (h1 : ABSOLUTE_MIN_THRESHOLD ≤ c) (h2 : c < MIN_CONFIDENCE_THRESHOLD)
    (htyp : is_typical_bignay_color f.color_hsv_mean.1)
    (hnw : ¬ is_clearly_not_bignay_color f.color_hsv_mean.1 f.color_hsv_mean.2.1)
    (hq : q.overall_quality = "poor" ∨ q.overall_quality = "acceptable") :
    (is_bignay_image c f (some q)).is_bignay = true ∧
    (is_bignay_image c f (some q)).confidence_level = "very_low" ∧
    (is_bignay_image c f (some q)).reason =
      some "Detection confidence is very low, but color profile matches Bignay." ∧
    (is_bignay_image c f (some q)).warning =
      some "Results may be inaccurate. Try capturing a clearer image." := by
  have hno : ¬ c < ABSOLUTE_MIN_THRESHOLD := not_lt.mpr h1
  have hnc : ¬ (is_clearly_not_bignay_color f.color_hsv_mean.1 f.color_hsv_mean.2.1 ∧
      c < 0.60) := fun hx => hnw hx.1
  have hty : ¬ ¬ is_typical_bignay_color f.color_hsv_mean.1 := not_not_intro htyp
  have hqq : (overall_quality_of (some q) = "poor" ∨
      overall_quality_of (some q) = "acceptable") ∧
      is_typical_bignay_color f.color_hsv_mean.1 := ⟨hq, htyp⟩
  simp only [is_bignay_image, if_neg hno, if_neg hnc, if_pos h2, if_neg hty, if_pos hqq]
  refine ⟨?_, ?_, ?_, ?_⟩ <;> first | rfl | trivial

/-- Witness for the amended C1 at confidence 0.27, hue 10, quality `poor`. -/
theorem gate_low_conf_poor_quality_accepts_witness :
    (is_bignay_image 0.27 ⟨"", (10, 100, 80), (0, 0, 0), none, 0⟩
      (some ⟨0, 0, 0, 0.5, "acceptable", [], []⟩)).is_bignay = true ∧
    (is_bignay_image 0.27 ⟨"", (10, 100, 80), (0, 0, 0), none, 0⟩
      (some ⟨0, 0, 0, 0.5, "acceptable", [], []⟩)).confidence_level = "very_low" := by
  have h := gate_low_conf_poor_quality_accepts 0.27
    ⟨"", (10, 100, 80), (0, 0, 0), none, 0⟩ ⟨0, 0, 0, 0.5, "acceptable", [], []⟩
    (by norm_num [ABSOLUTE_MIN_THRESHOLD]) (by norm_num [MIN_CONFIDENCE_THRESHOLD])
    (by decide) (by rintro (⟨⟨ha, -⟩, -⟩ | ⟨⟨ha, -⟩, -⟩) <;> norm_num at ha)
    (Or.inr rfl)
  exact ⟨h.1, h.2.1⟩

/-- Claim C7: `decode_data_url` fails with the malformed-input error on every
string with no comma, and on every string with a comma returns the base64
decoding (whatever `base64.b64decode` yields) of the substring after the
first comma. -/
theorem decode_data_url_spec (b64decode : List Char → Except String (List ℕ))
    (data_url : List Char) :
    (',' ∉ data_url → decode_data_url b64decode data_url =
      Except.error "Invalid data URL") ∧
    (',' ∈ data_url → decode_data_url b64decode data_url =
      b64decode (afterFirstComma data_url)) := by
  constructor
  · intro hno
    simp [decode_data_url, hno]
  · intro hyes
    simp [decode_data_url, hyes]

/-- Witness for C7: a comma-free input fails, and an input with a comma is
decoded from the substring after the first comma. -/
theorem decode_data_url_spec_witness :
    decode_data_url (fun l => Except.ok (l.map Char.toNat)) ['a', 'b'] =
      Except.error "Invalid data URL" ∧
    decode_data_url (fun l => Except.ok (l.map Char.toNat)) ['a', ',', 'b', 'c'] =
      Except.ok [98, 99] := by
  constructor
  · exact (decode_data_url_spec (fun l => Except.ok (l.map Char.toNat))
      ['a', 'b']).1 (by decide)
  · exact ((decode_data_url_spec (fun l => Except.ok (l.map Char.toNat))
      ['a', ',', 'b', 'c']).2 (by decide)).trans rfl

/-- Characterisation of the accept set of the gate: the branch table of
`_is_bignay_image` accepts exactly when confidence is at least the absolute
minimum, a clearly-wrong color forces confidence at least 0.60, and
confidence below the minimum threshold requires a typical color together
with poor or acceptable overall quality. -/
theorem is_bignay_image_accept_iff (c : ℚ) (f : ImageFeatures) (q : Option ImageQuality) :
    (is_bignay_image c f q).is_bignay = true ↔
      (ABSOLUTE_MIN_THRESHOLD ≤ c ∧
       (is_clearly_not_bignay_color f.color_hsv_mean.1 f.color_hsv_mean.2.1 →
         (3 / 5 : ℚ) ≤ c) ∧
       (c < MIN_CONFIDENCE_THRESHOLD →
         is_typical_bignay_color f.color_hsv_mean.1 ∧
         (overall_quality_of q = "poor" ∨ overall_quality_of q = "acceptable"))) := by
  unfold is_bignay_image ABSOLUTE_MIN_THRESHOLD MIN_CONFIDENCE_THRESHOLD
    BIGNAY_CONFIDENCE_THRESHOLD
  simp only [apply_ite GateResult.is_bignay]
  split_ifs with h1 h2 h3 h4 h5 h6 h7
  · refine iff_of_false not_false ?_
    rintro ⟨ha, -⟩
    linarith
  · refine iff_of_false not_false ?_
    rintro ⟨-, hb, -⟩
    have hge := hb h2.1
    linarith [h2.2]
  · refine iff_of_true rfl ?_
    exact ⟨not_lt.mp h1,
      fun hw => by
        by_contra hlt
        exact h2 ⟨hw, by linarith [not_le.mp hlt]⟩,
      fun hw => ⟨h5.2, h5.1⟩⟩
  · refine iff_of_false not_false ?_
    rintro ⟨-, -, hc⟩
    exact h5 ⟨(hc h3).2, (hc h3).1⟩
  · refine iff_of_false not_false ?_
    rintro ⟨-, -, hc⟩
    exact h4 (hc h3).1
  · refine iff_of_true rfl ?_
    exact ⟨not_lt.mp h1,
      fun hw => by
        by_contra hlt
        exact h2 ⟨hw, by linarith [not_le.mp hlt]⟩,
      fun hw => absurd hw h3⟩
  · refine iff_of_true rfl ?_
    exact ⟨not_lt.mp h1,
      fun hw => by
        by_contra hlt
        exact h2 ⟨hw, by linarith [not_le.mp hlt]⟩,
      fun hw => absurd hw h3⟩
  · refine iff_of_true rfl ?_
    exact ⟨not_lt.mp h1,
      fun hw => by
        by_contra hlt
        exact h2 ⟨hw, by linarith [not_le.mp hlt]⟩,
      fun hw => absurd hw h3⟩

/-- Claim C2: gate monotonicity.  Holding the color features and the quality
assessment fixed, if the gate accepts at confidence `c` in `[0, 1]` then it
accepts at every `d` with `c <= d <= 1`. -/
theorem gate_accept_monotone (c d : ℚ) (f : ImageFeatures) (q : Option ImageQuality)
    (h0 : 0 ≤ c) (hcd : c ≤ d) (h1 : d ≤ 1)
    (hacc : (is_bignay_image c f q).is_bignay = true) :
    (is_bignay_image d f q).is_bignay = true := by
  rw [is_bignay_image_accept_iff] at hacc ⊢
  obtain ⟨ha, hb, hc⟩ := hacc
  exact ⟨le_trans ha hcd, fun hw => le_trans (hb hw) hcd,
    fun hd => hc (lt_of_le_of_lt hcd hd)⟩

/-- Witness for C2: an accept at confidence 0.35 stays an accept at 0.5. -/
theorem gate_accept_monotone_witness :
    (is_bignay_image 0.35 ⟨"", (10, 100, 80), (0, 0, 0), none, 0⟩ none).is_bignay = true ∧
    (is_bignay_image 0.5 ⟨"", (10, 100, 80), (0, 0, 0), none, 0⟩ none).is_bignay = true := by
  have hanc : (is_bignay_image 0.35
      ⟨"", (10, 100, 80), (0, 0, 0), none, 0⟩ none).is_bignay = true := by
    rw [is_bignay_image_accept_iff]
    exact ⟨by norm_num [ABSOLUTE_MIN_THRESHOLD],
      fun hw => by rcases hw with ⟨⟨ha, -⟩, -⟩ | ⟨⟨ha, -⟩, -⟩ <;> norm_num at ha,
      fun hw => by norm_num [MIN_CONFIDENCE_THRESHOLD] at hw⟩
  exact ⟨hanc, gate_accept_monotone 0.35 0.5
    ⟨"", (10, 100, 80), (0, 0, 0), none, 0⟩ none (by norm_num) (by norm_num)
    (by norm_num) hanc⟩

/-- Claim C5: the overall quality tier is `good` when the average of the four
unrounded scores is at least 0.6 and at most one issue was raised, else
`acceptable` when the average is at least 0.35 or at most two issues were
raised, else `poor` — evaluated in this priority order — and the tag is
always one of exactly these three strings. -/
theorem overall_quality_tier_spec (sq : ℚ → ℚ) (img : PixelGrid) (cov : ℚ) :
    avg_score sq img cov =
      (blur_score img + brightness_score img + contrast_score sq img +
        subject_size_score cov) / 4 ∧
    (assess_image_quality sq img cov).overall_quality =
      (if 0.6 ≤ avg_score sq img cov ∧ (quality_issues sq img cov).length ≤ 1 then
        "good"
      else if 0.35 ≤ avg_score sq img cov ∨ (quality_issues sq img cov).length ≤ 2 then
        "acceptable"
      else "poor") ∧
    ((assess_image_quality sq img cov).overall_quality = "good" ∨
     (assess_image_quality sq img cov).overall_quality = "acceptable" ∨
     (assess_image_quality sq img cov).overall_quality = "poor") := by
  refine ⟨rfl, rfl, ?_⟩
  unfold assess_image_quality
  dsimp only
  split_ifs <;> simp

/-- Claim C10: for every image and coverage value the quality assessor
produces issues and recommendations lists of equal length — each check
appends an issue and a recommendation together. -/
theorem issues_recommendations_aligned (sq : ℚ → ℚ) (img : PixelGrid) (cov : ℚ) :
    (assess_image_quality sq img cov).issues.length =
      (assess_image_quality sq img cov).recommendations.length := by
  show (quality_issues sq img cov).length = (quality_recommendations sq img cov).length
  unfold quality_issues quality_recommendations quality_checks
  split_ifs <;> rfl

/-- Length of `List.zipWith3`: the minimum of the three input lengths. -/
theorem length_zipWith3L {α β γ δ : Type} (f : α → β → γ → δ) (as : List α)
    (bs : List β) (cs : List γ) :
    (List.zipWith3 f as bs cs).length = min as.length (min bs.length cs.length) := by
  induction as generalizing bs cs with
  | nil => simp [List.zipWith3]
  | cons a arest ih =>
    cases bs with
    | nil => simp [List.zipWith3]
    | cons b brest =>
      cases cs with
      | nil => simp [List.zipWith3]
      | cons cHead crest => simp [List.zipWith3, ih, Nat.succ_min_succ]

/-- Lemma: `clipGrid` keeps the grid shape. -/
theorem rowShape_clipGrid (g : PixelGrid) : rowShape (clipGrid g) = rowShape g := by
  simp [clipGrid, rowShape, List.map_map, Function.comp_def]

/-- Outer `mapIdx` with row-length-preserving bodies keeps the shape. -/
theorem rowShape_mapIdx (g : PixelGrid) (F : ℕ → List Pixel → List Pixel)
    (h : ∀ i row, (F i row).length = row.length) :
    (g.mapIdx F).map List.length = g.map List.length := by
  rw [List.mapIdx_eq_enum_map, List.map_map]
  have h1 : (List.length ∘ Function.uncurry F) =
      fun p : ℕ × List Pixel => p.2.length := by
    funext p
    exact h p.1 p.2
  rw [h1]
  have h2 : (fun p : ℕ × List Pixel => p.2.length) =
      List.length ∘ (Prod.snd : ℕ × List Pixel → List Pixel) := rfl
  rw [h2, ← List.map_map, List.enum_map_snd]

/-- The sharpening convolution keeps the grid shape. -/
theorem rowShape_filter2D (g : PixelGrid) :
    rowShape (filter2D_sharpen g) = rowShape g := by
  unfold filter2D_sharpen rowShape
  exact rowShape_mapIdx g _ (fun i row => by rw [List.length_mapIdx])

/-- The L channel has the shape of its Lab source. -/
theorem rowShapeC_splitL (g : PixelGrid) : rowShapeC (splitL g) = rowShape g := by
  simp [splitL, rowShapeC, rowShape, List.map_map, Function.comp_def]

/-- The a channel has the shape of its Lab source. -/
theorem rowShapeC_splitA (g : PixelGrid) : rowShapeC (splitA g) = rowShape g := by
  simp [splitA, rowShapeC, rowShape, List.map_map, Function.comp_def]

/-- The b channel has the shape of its Lab source. -/
theorem rowShapeC_splitB (g : PixelGrid) : rowShapeC (splitB g) = rowShape g := by
  simp [splitB, rowShapeC, rowShape, List.map_map, Function.comp_def]

/-- Merging equally-shaped channels yields a grid of that shape. -/
theorem rowShape_mergeLab (l a b : ChannelGrid) (ha : rowShapeC l = rowShapeC a)
    (hb : rowShapeC l = rowShapeC b) :
    rowShape (mergeLab l a b) = rowShapeC l := by
  induction l generalizing a b with
  | nil => simp [mergeLab, List.zipWith3, rowShape, rowShapeC]
  | cons lr lrest ih =>
    cases a with
    | nil => simp [rowShapeC] at ha
    | cons ar arest =>
      cases b with
      | nil => simp [rowShapeC] at hb
      | cons br brest =>
        simp only [rowShapeC, List.map_cons, List.cons.injEq] at ha hb
        simp only [mergeLab, List.zipWith3, rowShape, rowShapeC, List.map_cons,
          List.cons.injEq]
        constructor
        · rw [length_zipWith3L, ← ha.1, ← hb.1]
          simp
        · exact ih arest brest ha.2 hb.2

/-- Every channel of a clipped grid is at most 255. -/
theorem clipGrid_le (g : PixelGrid) :
    ∀ row ∈ clipGrid g, ∀ p ∈ row, p.1 ≤ 255 ∧ p.2.1 ≤ 255 ∧ p.2.2 ≤ 255 := by
  intro row hrow p hp
  simp only [clipGrid, List.mem_map] at hrow
  obtain ⟨row0, -, rfl⟩ := hrow
  simp only [List.mem_map] at hp
  obtain ⟨p0, -, rfl⟩ := hp
  exact ⟨min_le_left _ _, min_le_left _ _, min_le_left _ _⟩

/-- Claim C8: for every input image the enhancer returns a grid of the same
shape whose channel values all lie in `[0, 255]` (channels are naturals, so
the lower bound is intrinsic), provided the external OpenCV filters satisfy
their dimension-preservation contracts; the embedding is pure, so the input
grid itself is untouched. -/
theorem enhance_shape_and_range (E : EnhanceParams) (img : PixelGrid)
    (hbil : PreservesShape E.bilateralFilter9)
    (hlab : PreservesShape E.cvtColor_bgr2lab)
    (hcl : PreservesShapeC E.claheL)
    (hback : PreservesShape E.cvtColor_lab2bgr) :
    rowShape (enhance_image_for_detection E img) = rowShape img ∧
    ∀ row ∈ enhance_image_for_detection E img, ∀ p ∈ row,
      p.1 ≤ 255 ∧ p.2.1 ≤ 255 ∧ p.2.2 ≤ 255 := by
  constructor
  · show rowShape (clipGrid (filter2D_sharpen (E.cvtColor_lab2bgr (mergeLab
      (E.claheL (splitL (E.cvtColor_bgr2lab (E.bilateralFilter9 img))))
      (splitA (E.cvtColor_bgr2lab (E.bilateralFilter9 img)))
      (splitB (E.cvtColor_bgr2lab (E.bilateralFilter9 img))))))) = rowShape img
    rw [rowShape_clipGrid, rowShape_filter2D, hback]
    rw [rowShape_mergeLab]
    · rw [hcl, rowShapeC_splitL, hlab, hbil]
    · rw [hcl, rowShapeC_splitL, rowShapeC_splitA]
    · rw [hcl, rowShapeC_splitL, rowShapeC_splitB]
  · exact clipGrid_le _

/-- Witness for C8: identity externals (which trivially preserve shape) on a
one-pixel image. -/
theorem enhance_shape_and_range_witness :
    rowShape (enhance_image_for_detection ⟨id, id, id, id⟩ [[(0, 0, 0)]]) = [1] := by
  have h := enhance_shape_and_range ⟨id, id, id, id⟩ [[(0, 0, 0)]]
    (fun g => rfl) (fun g => rfl) (fun g => rfl) (fun g => rfl)
  simpa [rowShape] using h.1

/-- A 0/255 row sums to 255 times its nonzero count. -/
theorem row_sum_eq_255_count (row : List ℕ) (h : ∀ x ∈ row, x = 0 ∨ x = 255) :
    row.sum = 255 * (row.filter (fun x => x ≠ 0)).length := by
  induction row with
  | nil => simp
  | cons x xs ih =>
    have hx := h x (List.mem_cons_self _ _)
    have hxs := ih (fun y hy => h y (List.mem_cons_of_mem _ hy))
    rcases hx with rfl | rfl
    · simpa using hxs
    · simp only [List.sum_cons, List.filter_cons]
      norm_num [hxs]
      ring

/-- A 0/255 grid sums to 255 times its nonzero pixel count. -/
theorem sum_eq_255_countPos (g : ChannelGrid)
    (hg : ∀ row ∈ g, ∀ x ∈ row, x = 0 ∨ x = 255) :
    sumEntries g = 255 * countPos g := by
  unfold sumEntries countPos
  induction g with
  | nil => simp
  | cons row rest ih =>
    simp only [List.map_cons, List.sum_cons]
    rw [ih (fun r hr x hx => hg r (List.mem_cons_of_mem _ hr) x hx),
      row_sum_eq_255_count row (hg row (List.mem_cons_self _ _))]
    ring

/-- Claim C4: when coverage is at most 0.01 the extracted HSV/Lab means are
the per-channel means over the whole image and the diameter is absent; when
coverage exceeds 0.01 the means are over masked pixels only and the diameter
is `sqrt(4*area/pi)` with `area` the pixel count of the rasterised 0/255
mask. -/
theorem extract_features_fallback_spec (P : SegParams) (img : PixelGrid) :
    ((largest_contour_mask P img).2 ≤ 0.01 →
      (extract_features P img).color_hsv_mean =
        meanPerChannel (allPixels (P.cvtColor_bgr2hsv img)) ∧
      (extract_features P img).color_lab_mean =
        meanPerChannel (allPixels (P.cvtColor_bgr2lab img)) ∧
      (extract_features P img).size_px_diameter = none) ∧
    (0.01 < (largest_contour_mask P img).2 →
      (extract_features P img).color_hsv_mean =
        meanPerChannel
          (maskedPixels (P.cvtColor_bgr2hsv img) (largest_contour_mask P img).1) ∧
      (extract_features P img).color_lab_mean =
        meanPerChannel
          (maskedPixels (P.cvtColor_bgr2lab img) (largest_contour_mask P img).1) ∧
      ((∀ row ∈ (largest_contour_mask P img).1, ∀ x ∈ row, x = 0 ∨ x = 255) →
        (extract_features P img).size_px_diameter =
          some (Real.sqrt (4 * ((countPos (largest_contour_mask P img).1 : ℕ) : ℝ) /
            Real.pi)))) := by
  constructor
  · intro hle
    have hnot : ¬ (0.01 < (largest_contour_mask P img).2) := not_lt.mpr hle
    simp only [extract_features, if_neg hnot]
    refine ⟨?_, ?_, ?_⟩ <;> first | rfl | trivial
  · intro hlt
    simp only [extract_features, if_pos hlt]
    refine ⟨by trivial, by trivial, fun hmask => ?_⟩
    have harea : ((maskArea (largest_contour_mask P img).1 : ℚ) : ℝ) =
        ((countPos (largest_contour_mask P img).1 : ℕ) : ℝ) := by
      unfold maskArea
      rw [sum_eq_255_countPos _ hmask]
      push_cast
      exact mul_div_cancel_left₀ _ (by norm_num)
    rw [harea]

/-- Witness for C4: a run with no contour found falls back (no diameter),
and a run with a square contour of area 100 on a one-pixel image computes
the diameter from the one-pixel 0/255 mask. -/
theorem extract_features_fallback_spec_witness :
    (extract_features
      ⟨id, id, id, id, id, id, fun _ => [], fun _ _ _ => [], fun _ => none, fun _ => ""⟩
      [[(1, 2, 3)]]).size_px_diameter = none ∧
    (extract_features
      ⟨id, id, id, id, id, id, fun _ => [[(0, 0), (10, 0), (10, 10), (0, 10)]],
        fun _ _ _ => [[255]], fun _ => none, fun _ => ""⟩
      [[(1, 2, 3)]]).size_px_diameter =
      some (Real.sqrt (4 * ((countPos [[255]] : ℕ) : ℝ) / Real.pi)) := by
  constructor
  · exact ((extract_features_fallback_spec
      ⟨id, id, id, id, id, id, fun _ => [], fun _ _ _ => [], fun _ => none, fun _ => ""⟩
      [[(1, 2, 3)]]).1 (by show (0 : ℚ) ≤ 0.01; norm_num)).2.2
  · exact ((extract_features_fallback_spec
      ⟨id, id, id, id, id, id, fun _ => [[(0, 0), (10, 0), (10, 10), (0, 10)]],
        fun _ _ _ => [[255]], fun _ => none, fun _ => ""⟩
      [[(1, 2, 3)]]).2 (by
        show (0.01 : ℚ) <
          contourArea [(0, 0), (10, 0), (10, 10), (0, 10)] / ((1 : ℚ) * (1 : ℚ))
        simp only [contourArea, shoelaceFrom]
        norm_num)).2.2 (by decide)
